import Mathlib

/-!
Verification development for the SIH25039 ocean-hazard monitoring platform.

The definitions below are a shallow embedding of the Python sources:

* `src/nlp-engine/processors.py` — text preprocessing, hazard keyword and
  pattern extraction, sentiment, hazard probability;
* `src/nlp-engine/main.py` — `process_single_post` ingestion with
  deduplication and the `> 0.2` persistence threshold;
* `src/backend/alert_service.py` — alert creation, expiry cleanup, read
  receipts, report-to-alert generation, notification fanout;
* `src/backend/incois_integration.py` — INCOIS alert storage and the
  alert summary computation;
* `src/backend/main.py` — hazard report creation endpoint validation.

Machine reals (Python floats) are modelled by `ℚ`; every constant in the
source is a multiple of 1/10 and all threshold comparisons in the code
land on exactly representable values, so the rational model is
behaviourally faithful.  Wall-clock times are modelled by `Int` seconds.
The VADER sentiment analyzer is an external library (not repository
code); it is modelled as an explicit function parameter `vader`, whose
documented contract (compound score in [-1, 1]) enters as a hypothesis
where needed.  Word characters are modelled as ASCII alphanumerics plus
underscore, matching Python `\w` on the ASCII inputs used throughout.
-/

namespace Dolphins

/-! ### Character classes (Python `\s`, `\w`) -/

/-- Python whitespace class `\s` over ASCII: space, tab, newline, carriage
return, vertical tab, form feed. -/
def isPySpace (c : Char) : Bool :=
  c = ' ' || c = '\t' || c = '\n' || c = '\r' || c = '\x0b' || c = '\x0c'

/-- Python word-character class `\w` (ASCII fragment): alphanumerics and
underscore. -/
def isWordChar (c : Char) : Bool :=
  c.isAlphanum || c = '_'

/-- Lowercasing of a character list (Python `str.lower()` restricted to
ASCII, which is all the fixed keyword tables use). -/
def lowerL (l : List Char) : List Char :=
  l.map Char.toLower

/-- Lowercasing of a string via its character list (kept executable down
to the kernel, unlike `String.toLower`). -/
def lowerStr (s : String) : String :=
  ⟨lowerL s.data⟩

/-- Does list `l` start with the literal character sequence `p`? -/
def startsWithL (p l : List Char) : Bool :=
  l.take p.length == p

/-! ### `SocialMediaProcessor.preprocess_text` (processors.py lines 34-54)

The method lowercases, removes URL tokens (`http\S+|www\S+|https\S+`),
removes mention/hashtag markers together with the following word run
(`@\w+|#\w+`), collapses whitespace runs to single spaces and strips the
ends, and finally filters out characters other than `\w`, `\s` and
`. , ! ?`.  Each `re.sub` scan is leftmost-first with greedy `\S+`/`\w+`,
which the mode-switching recursions below reproduce: a URL match is
exactly a segment from a `http`/`www` occurrence (followed by at least
one further non-space character) up to the next whitespace. -/

/-- Is a `http\S+` or `www\S+` match anchored at the head of `l`?
The `https\S+` alternative is subsumed by `http\S+`. -/
def urlHere (l : List Char) : Bool :=
  (startsWithL "http".data l &&
    (match l.drop 4 with
     | d :: _ => !isPySpace d
     | [] => false)) ||
  (startsWithL "www".data l &&
    (match l.drop 3 with
     | d :: _ => !isPySpace d
     | [] => false))

mutual

/-- Scanning mode of `re.sub(r"http\S+|www\S+|https\S+", "", text)`. -/
def stripURLs : List Char → List Char
  | [] => []
  | c :: cs => if urlHere (c :: cs) then stripURLsSkip cs else c :: stripURLs cs

/-- Inside a URL match: drop characters until the next whitespace. -/
def stripURLsSkip : List Char → List Char
  | [] => []
  | c :: cs => if isPySpace c then c :: stripURLs cs else stripURLsSkip cs

end

/-- Does the head of `l` exist and is it a word character? -/
def headIsWordChar (l : List Char) : Bool :=
  match l with
  | c :: _ => isWordChar c
  | [] => false

mutual

/-- Scanning mode of `re.sub(r"@\w+|#\w+", "", text)`: a marker directly
followed by at least one word character starts a match. -/
def stripMarks : List Char → List Char
  | [] => []
  | c :: cs =>
    if (c = '@' || c = '#') && headIsWordChar cs then stripMarksSkip cs
    else c :: stripMarks cs

/-- Inside a `@\w+`/`#\w+` match: drop the maximal word-character run,
then resume scanning (the next character may itself start a match). -/
def stripMarksSkip : List Char → List Char
  | [] => []
  | c :: cs =>
    if isWordChar c then stripMarksSkip cs
    else if (c = '@' || c = '#') && headIsWordChar cs then stripMarksSkip cs
    else c :: stripMarks cs

end

mutual

/-- Scanning mode of `re.sub(r"\s+", " ", text)`: a whitespace run is
replaced by a single space. -/
def collapseWS : List Char → List Char
  | [] => []
  | c :: cs =>
    if isPySpace c then ' ' :: collapseWSSkip cs else c :: collapseWS cs

/-- Inside a whitespace run: drop the remaining whitespace characters. -/
def collapseWSSkip : List Char → List Char
  | [] => []
  | c :: cs => if isPySpace c then collapseWSSkip cs else c :: collapseWS cs

end

/-- Python `str.strip()`: drop leading and trailing whitespace. -/
def stripEnds (l : List Char) : List Char :=
  ((l.dropWhile isPySpace).reverse.dropWhile isPySpace).reverse

/-- Character filter of `re.sub(r"[^\w\s.,!?]", "", text)`. -/
def keepChar (c : Char) : Bool :=
  isWordChar c || isPySpace c || c = '.' || c = ',' || c = '!' || c = '?'

/-- `SocialMediaProcessor.preprocess_text`: empty input short-circuits to
the empty string; otherwise lowercase, strip URLs, strip mention and
hashtag markers, collapse and strip whitespace, filter characters. -/
def preprocess_text (text : String) : String :=
  if text = "" then ""
  else
    let l := lowerL text.data
    let l := stripURLs l
    let l := stripMarks l
    let l := stripEnds (collapseWS l)
    let l := l.filter keepChar
    ⟨l⟩

/-! ### Regex pattern matching for `HazardAnalyzer.hazard_patterns`

Every pattern in processors.py lines 99-125 has one of two shapes:

* `\b(w1|w2|...)\b` — an alternation of literal phrases, word-bounded on
  both sides;
* `\b(u1|u2)(\b)?.*\b(v1|v2|...)\b` — a left-bounded (and in one case
  also right-bounded) alternation, then `.*` (any characters except
  newline), then a fully bounded alternation.

`re.search` succeeds iff a match exists somewhere, so matching is
modelled existentially over start positions.  All phrases begin and end
with word characters, so `\b` before (after) a phrase means the adjacent
character is absent or a non-word character. -/

/-- Literal occurrence of `w` in `t` at index `i`. -/
def litAt (t w : List Char) (i : Nat) : Bool :=
  (t.drop i).take w.length == w

/-- Word boundary immediately before index `i` (phrase starts with a word
character). -/
def boundaryBefore (t : List Char) (i : Nat) : Bool :=
  i == 0 || !isWordChar (t.getD (i - 1) ' ')

/-- Word boundary immediately before index `j` counted from the right:
the character at `j` is absent or not a word character. -/
def boundaryAfter (t : List Char) (j : Nat) : Bool :=
  !isWordChar (t.getD j ' ')

/-- `\b w \b` matches at position `i` of `t`. -/
def wordAt (t w : List Char) (i : Nat) : Bool :=
  boundaryBefore t i && litAt t w i && boundaryAfter t (i + w.length)

/-- `\b w` (no trailing boundary) matches at position `i` of `t`. -/
def wordAtNoRight (t w : List Char) (i : Nat) : Bool :=
  boundaryBefore t i && litAt t w i

/-- Some word-bounded occurrence of `w` exists in `t`. -/
def containsWordB (t w : List Char) : Bool :=
  (List.range (t.length + 1)).any (wordAt t w)

/-- The `.*` of a pattern cannot cross a newline. -/
def noNewlineBetween (t : List Char) (a b : Nat) : Bool :=
  ((t.drop a).take (b - a)).all (· != '\n')

/-- Shape of one entry of `HazardAnalyzer.hazard_patterns`:
`alt` is `\b(w1|...)\b`; `seq rb g1 g2` is `\b(g1...)(\b if rb).*\b(g2...)\b`. -/
inductive HPat where
  | alt : List String → HPat
  | seq : Bool → List String → List String → HPat

/-- Does an `HPat` match (in the sense of `re.search`) the character list
`t`?  `t` is the already-lowercased text. -/
def hpatMatchL (t : List Char) : HPat → Bool
  | .alt ws => ws.any fun w => containsWordB t w.data
  | .seq rb g1 g2 =>
    (List.range (t.length + 1)).any fun i =>
      g1.any fun w1 =>
        (if rb then wordAt t w1.data i else wordAtNoRight t w1.data i) &&
        (List.range (t.length + 1)).any fun j =>
          decide (i + w1.length ≤ j) &&
          noNewlineBetween t (i + w1.length) j &&
          g2.any fun w2 => wordAt t w2.data j

/-- `re.search(pattern, text, re.IGNORECASE)`: lowercase the text (the
stored phrases are lowercase). -/
def hpatSearch (text : String) (p : HPat) : Bool :=
  hpatMatchL (lowerL text.data) p

/-- `HazardAnalyzer.hazard_patterns` (processors.py lines 99-125),
transcribed pattern by pattern. -/
def hazard_patterns : List (String × List HPat) :=
  [("tsunami",
    [.alt ["tsunami", "tidal wave", "seismic wave"],
     .seq true ["wave height", "wave size"] ["high", "large", "big", "massive"],
     .seq false ["earthquake", "seismic"] ["ocean", "sea", "coastal"]]),
   ("storm_surge",
    [.alt ["storm surge", "storm tide"],
     .alt ["coastal flooding", "shore flooding"],
     .seq false ["water level", "sea level"] ["rising", "increasing", "high"]]),
   ("high_waves",
    [.alt ["high waves", "big waves", "rough seas"],
     .seq false ["wave height", "wave size"] ["high", "large", "big"],
     .seq false ["dangerous", "hazardous"] ["waves", "seas"]]),
   ("flooding",
    [.alt ["flood", "flooding", "inundation"],
     .alt ["water level", "water rising"],
     .alt ["submerged", "underwater", "waterlogged"]]),
   ("coastal_current",
    [.alt ["current", "rip current", "undertow"],
     .alt ["strong current", "dangerous current"],
     .seq false ["swimming", "drowning"] ["current", "undertow"]])]

/-- `SocialMediaProcessor.hazard_keywords["general"]`. -/
def general_hazard_words : List String :=
  ["hazard", "danger", "warning", "alert", "emergency", "disaster"]

/-- `HazardAnalyzer.urgency_keywords`. -/
def urgency_keywords : List String :=
  ["urgent", "immediate", "emergency", "critical", "warning"]

/-- Python substring containment `needle in hay` on character lists. -/
def containsSub (hay needle : List Char) : Bool :=
  (List.range (hay.length + 1)).any fun i => litAt hay needle i

/-- Deduplication with first occurrences kept (models `list(set(...))`
up to element order; downstream code only uses membership and
emptiness). -/
def dedupFirstAux (seen : List String) : List String → List String
  | [] => []
  | x :: xs =>
    if seen.contains x then dedupFirstAux seen xs
    else x :: dedupFirstAux (x :: seen) xs

/-- Deduplicate a keyword list, keeping first occurrences. -/
def dedupFirst (l : List String) : List String :=
  dedupFirstAux [] l

/-- `HazardAnalyzer.extract_hazard_keywords` (processors.py lines
132-147): for every hazard type, every matching pattern appends the type
tag; every general hazard word contained in the lowered text appends
`general_hazard`; the result is deduplicated. -/
def extract_hazard_keywords (text : String) : List String :=
  let fromPatterns :=
    hazard_patterns.foldl
      (fun acc tp => acc ++ (tp.2.filter (hpatSearch text)).map (fun _ => tp.1)) []
  let gens :=
    (general_hazard_words.filter
      (fun k => containsSub (lowerL text.data) k.data)).map
      (fun _ => "general_hazard")
  dedupFirst (fromPatterns ++ gens)

/-- `HazardAnalyzer.calculate_sentiment` (processors.py lines 149-156):
0 for empty text, otherwise the VADER compound polarity score.  VADER is
an external library; it enters the model as the parameter `vader`. -/
def calculate_sentiment (vader : String → ℚ) (text : String) : ℚ :=
  if text = "" then 0 else vader text

/-- Number of urgency keywords contained (as substrings) in the lowered
text (processors.py line 177). -/
def urgencyCount (text : String) : Nat :=
  (urgency_keywords.filter (fun k => containsSub (lowerL text.data) k.data)).length

/-- Contribution of the pattern-matching loop of
`calculate_hazard_probability` (processors.py lines 170-174): the inner
`break` makes each hazard type contribute +0.2 when any of its patterns
matches, independently of how many of its patterns match. -/
def pattern_bonus_code (text : String) : ℚ :=
  hazard_patterns.foldl
    (fun acc tp => if tp.2.any (hpatSearch text) then acc + 2/10 else acc) 0

/-- Pattern bonus as the specification sentence reads (spec.md section
4.1: "+0.2 if any hazard-type regex pattern matches (once, not per
pattern)" — claim C2 reads this as at most once in total): a single +0.2
when any pattern of any hazard type matches. -/
def pattern_bonus_spec (text : String) : ℚ :=
  if hazard_patterns.any (fun tp => tp.2.any (hpatSearch text)) then 2/10 else 0

/-- `HazardAnalyzer.calculate_hazard_probability` (processors.py lines
158-185): 0 for empty text; otherwise +0.3 if any hazard keyword was
extracted, +0.2 per hazard type with a matching pattern, urgency bonus
`min(count * 0.1, 0.3)`, +0.2 for sentiment below -0.1, capped at 1. -/
def calculate_hazard_probability (vader : String → ℚ) (text : String)
    (hazard_keywords : List String) : ℚ :=
  if text = "" then 0
  else
    let p1 : ℚ := if hazard_keywords ≠ [] then 3/10 else 0
    let p2 : ℚ :=
      hazard_patterns.foldl
        (fun acc tp => if tp.2.any (hpatSearch text) then acc + 2/10 else acc) p1
    let p3 : ℚ := p2 + min ((urgencyCount text : ℚ) * (1/10)) (3/10)
    let p4 : ℚ :=
      p3 + if calculate_sentiment vader text < -(1/10) then 2/10 else 0
    min p4 1

/-- Fields computed by the `/analyze/text` endpoint and by
`process_single_post` (nlp-engine/main.py): preprocess, then keywords,
sentiment and probability of the processed text. -/
def analyze_fields (vader : String → ℚ) (text : String) :
    String × List String × ℚ × ℚ :=
  let pt := preprocess_text text
  let hk := extract_hazard_keywords pt
  (pt, hk, calculate_sentiment vader pt, calculate_hazard_probability vader pt hk)

/-! ### `process_single_post` (nlp-engine/main.py lines 190-241)

The signal store (table `social_media_posts`) is modelled as the list of
stored rows in insertion order; `db.add` + `db.commit` appends.  The
Redis publish after a successful insert is fire-and-forget and carries
no state, so it is not represented. -/

/-- Raw post handed to `process_single_post` by a collector. -/
structure PostData where
  platform : String
  post_id : String
  content : String
  deriving Repr, DecidableEq

/-- A stored `SocialMediaPost` row (the analysis columns). -/
structure StoredSignal where
  platform : String
  post_id : String
  content : String
  hazard_keywords : List String
  sentiment_score : ℚ
  hazard_probability : ℚ
  deriving Repr, DecidableEq

/-- The dedup query of `process_single_post`: does a row with the same
`(platform, post_id)` already exist? -/
def signalExists (store : List StoredSignal) (platform post_id : String) : Bool :=
  store.any fun s => s.platform == platform && s.post_id == post_id

/-- `process_single_post`: return early if the `(platform, post_id)`
identity is already stored; otherwise analyze, and persist only when
`hazard_probability > 0.2`. -/
def process_single_post (vader : String → ℚ) (store : List StoredSignal)
    (p : PostData) : List StoredSignal :=
  if signalExists store p.platform p.post_id then store
  else
    let pt := preprocess_text p.content
    let hk := extract_hazard_keywords pt
    let ss := calculate_sentiment vader pt
    let hp := calculate_hazard_probability vader pt hk
    if hp > 2/10 then
      store ++ [⟨p.platform, p.post_id, p.content, hk, ss, hp⟩]
    else store

/-- Number of stored rows carrying a given `(platform, post_id)`
identity. -/
def countIdentity (store : List StoredSignal) (platform post_id : String) : Nat :=
  (store.filter fun s => s.platform == platform && s.post_id == post_id).length

/-! ### Backend data model (backend/models.py) and `AlertService`

Rows carry the columns the claims are about; `id` values are assigned
from a `next_alert_id` counter, modelling the autoincrement primary key.
`datetime.utcnow()` is modelled by an explicit `now : Int` argument (in
seconds); the two `utcnow()` calls inside `create_alert` happen at one
modelled instant. -/

/-- Exceptions the embedded Python code can raise. -/
inductive PyErr where
  | nameError
  | valueError
  | httpError (code : Nat)
  | channelError
  deriving Repr, DecidableEq

/-- A `users` row (backend/models.py defines no phone column; the
optional field mirrors the `hasattr(user, "phone_number")` guard in
`_send_notifications`, which is false for ORM-loaded users). -/
structure DUser where
  id : Nat
  email : String
  phone_number : Option String
  deriving Repr, DecidableEq

/-- An `alerts` row. -/
structure Alert where
  id : Nat
  alert_type : String
  title : String
  message : String
  severity : String
  source : String
  affected_area : Option String
  is_active : Bool
  created_at : Int
  expires_at : Int
  deriving Repr, DecidableEq

/-- A `user_alerts` row. -/
structure UserAlert where
  user_id : Nat
  alert_id : Nat
  is_read : Bool
  deriving Repr, DecidableEq

/-- A `hazard_reports` row (the columns `generate_alert_from_report`
reads). -/
structure HazardReportRow where
  id : Nat
  title : String
  hazard_type : String
  severity : String
  is_verified : Bool
  created_at : Int
  deriving Repr, DecidableEq

/-- The persistent state touched by the alert lifecycle. -/
structure BackendState where
  alerts : List Alert
  user_alerts : List UserAlert
  users : List DUser
  next_alert_id : Nat
  deriving Repr, DecidableEq

/-- `AlertService.create_alert` (alert_service.py lines 54-89): insert an
active alert with `expires_at = created_at + 24h`, then `_notify_users`
creates a `UserAlert(is_read=False)` row for every user (spatial
filtering is a stated simplification).  Channel sends and the Redis
publish are external effects modelled separately (`send_notifications`). -/
def create_alert (s : BackendState) (now : Int) (alert_type title message
    severity : String) (affected_area : Option String) (source : String) :
    Alert × BackendState :=
  let a : Alert :=
    { id := s.next_alert_id
      alert_type := alert_type
      title := title
      message := message
      severity := severity
      source := source
      affected_area := affected_area
      is_active := true
      created_at := now
      expires_at := now + 86400 }
  let uas := s.users.map fun u => UserAlert.mk u.id a.id false
  (a, { s with
          alerts := s.alerts ++ [a]
          user_alerts := s.user_alerts ++ uas
          next_alert_id := s.next_alert_id + 1 })

/-- One alert under the expiry sweep: `cleanup_expired_alerts` selects
rows with `expires_at < now` and `is_active == True` and sets
`is_active = False`. -/
def deactivate_if_expired (now : Int) (a : Alert) : Alert :=
  if a.expires_at < now ∧ a.is_active then { a with is_active := false } else a

/-- `AlertService.cleanup_expired_alerts` (alert_service.py lines
279-300). -/
def cleanup_expired_alerts (s : BackendState) (now : Int) : BackendState :=
  { s with alerts := s.alerts.map (deactivate_if_expired now) }

/-- Update of the first `(user_id, alert_id)` match, mirroring
`query(...).first()` followed by `user_alert.is_read = True`. -/
def setReadFirst (user_id alert_id : Nat) : List UserAlert → List UserAlert
  | [] => []
  | ua :: rest =>
    if ua.user_id = user_id ∧ ua.alert_id = alert_id then
      { ua with is_read := true } :: rest
    else ua :: setReadFirst user_id alert_id rest

/-- `AlertService.mark_alert_read` (alert_service.py lines 221-239): flip
`is_read` on the first matching `UserAlert` row; when no row matches,
nothing happens and no row is created. -/
def mark_alert_read (s : BackendState) (user_id alert_id : Nat) : BackendState :=
  { s with user_alerts := setReadFirst user_id alert_id s.user_alerts }

/-- The suppression query written inside `generate_alert_from_report`
(alert_service.py lines 249-253): first active alert of the same
`alert_type` created within the last hour.  The query does not filter on
`source`.  In the source this query is dead code, because the local
variable `db` it reads is never bound in that method. -/
def find_suppressing_alert (s : BackendState) (now : Int)
    (hazard_type : String) : Option Alert :=
  s.alerts.find? fun a =>
    a.alert_type == hazard_type && a.is_active &&
    decide (now - 3600 ≤ a.created_at)

/-- Body of `AlertService.generate_alert_from_report` (alert_service.py
lines 241-277) inside its `try`.  After the severity gate, the very next
statement evaluates `db.query(...)` — but `db` is unbound in the method
scope (no `db = next(get_db())` line, unlike every sibling method), so
Python raises `NameError` before any alert can be looked up or created. -/
def generate_alert_body (s : BackendState) (_now : Int) (r : HazardReportRow) :
    Except PyErr (Option Alert × BackendState) :=
  if r.severity = "high" ∨ r.severity = "critical" then
    .error .nameError
  else
    .ok (none, s)

/-- `AlertService.generate_alert_from_report` with its enclosing
`except Exception`: the handler logs and returns `None`, leaving the
state unchanged. -/
def generate_alert_from_report (s : BackendState) (now : Int)
    (r : HazardReportRow) : Option Alert × BackendState :=
  match generate_alert_body s now r with
  | .ok v => v
  | .error _ => (none, s)

/-- A processed INCOIS feed item as built by `_process_incois_data`
(incois_integration.py lines 62-81). -/
structure IncoisItem where
  alert_type : String
  title : String
  message : String
  severity : String
  affected_area : Option String
  created_at : Int
  expires_at : Int
  deriving Repr, DecidableEq

/-- One iteration of `INCOISIntegration.store_alerts`
(incois_integration.py lines 108-140): insert unless an alert with the
same `(alert_type, title)` and `source == "incois"` already exists;
inserts are active and fan out `UserAlert` rows to all users. -/
def store_incois_alert (s : BackendState) (it : IncoisItem) : BackendState :=
  if s.alerts.any (fun a =>
      a.alert_type == it.alert_type && a.title == it.title &&
      a.source == "incois") then s
  else
    let a : Alert :=
      { id := s.next_alert_id
        alert_type := it.alert_type
        title := it.title
        message := it.message
        severity := it.severity
        source := "incois"
        affected_area := it.affected_area
        is_active := true
        created_at := it.created_at
        expires_at := it.expires_at }
    { s with
        alerts := s.alerts ++ [a]
        user_alerts := s.user_alerts ++ s.users.map fun u => UserAlert.mk u.id a.id false
        next_alert_id := s.next_alert_id + 1 }

/-- `INCOISIntegration.store_alerts` over the fetched list. -/
def store_alerts (s : BackendState) (items : List IncoisItem) : BackendState :=
  items.foldl store_incois_alert s

/-- The state-mutating operations of the alert lifecycle. -/
inductive BOp where
  | createAlert (now : Int) (alert_type title message severity : String)
      (affected_area : Option String) (source : String)
  | storeIncois (item : IncoisItem)
  | cleanup (now : Int)
  | markRead (user_id alert_id : Nat)
  | genReportAlert (now : Int) (r : HazardReportRow)

/-- Apply one operation to the backend state. -/
def applyOp (s : BackendState) : BOp → BackendState
  | .createAlert now ty t m sv ar src => (create_alert s now ty t m sv ar src).2
  | .storeIncois it => store_incois_alert s it
  | .cleanup now => cleanup_expired_alerts s now
  | .markRead u a => mark_alert_read s u a
  | .genReportAlert now r => (generate_alert_from_report s now r).2

/-- Apply a sequence of operations. -/
def applyOps (s : BackendState) (ops : List BOp) : BackendState :=
  ops.foldl applyOp s

/-- First alert row with a given id. -/
def findAlert (s : BackendState) (i : Nat) : Option Alert :=
  s.alerts.find? fun a => a.id = i

/-! ### Notification fanout (`AlertService._send_notifications`,
alert_service.py lines 114-177)

Each channel method wraps its underlying send in its own
`try/except Exception`, so a failing gateway call is caught inside the
channel method and never reaches `_send_notifications`; the per-user
`try/except` there would catch an escaping channel error and move to the
next user.  The external gateways are modelled by a failure assignment
`g : Nat → NChannel → Bool` (`true` means the underlying send raises);
observable behaviour is a trace of events plus a Python-level outcome. -/

/-- Notification channels. -/
inductive NChannel where
  | email
  | sms
  | push
  deriving Repr, DecidableEq

/-- Observable events of a fanout run: a channel send being attempted, a
caught channel failure being logged, a caught per-user failure being
logged. -/
inductive NotifyEv where
  | attempt (user_id : Nat) (c : NChannel)
  | failureLogged (user_id : Nat) (c : NChannel)
  | userErrorLogged (user_id : Nat)
  deriving Repr, DecidableEq

/-- The `hasattr(user, "phone_number") and user.phone_number` guard
(alert_service.py line 122): present and truthy (Python treats the empty
string as falsy). -/
def hasPhone (u : DUser) : Bool :=
  match u.phone_number with
  | some p => p ≠ ""
  | none => false

/-- `AlertService._send_email_notification` (lines 131-145): attempt the
send; a raising gateway is caught by the inner handler, which logs and
returns normally. -/
def send_email_notification (g : Nat → NChannel → Bool) (u : DUser) :
    List NotifyEv × Except PyErr Unit :=
  if g u.id .email then
    ([.attempt u.id .email, .failureLogged u.id .email], .ok ())
  else
    ([.attempt u.id .email], .ok ())

/-- `AlertService._send_sms_notification` (lines 147-160), same
structure. -/
def send_sms_notification (g : Nat → NChannel → Bool) (u : DUser) :
    List NotifyEv × Except PyErr Unit :=
  if g u.id .sms then
    ([.attempt u.id .sms, .failureLogged u.id .sms], .ok ())
  else
    ([.attempt u.id .sms], .ok ())

/-- `AlertService._send_push_notification` (lines 162-177), same
structure. -/
def send_push_notification (g : Nat → NChannel → Bool) (u : DUser) :
    List NotifyEv × Except PyErr Unit :=
  if g u.id .push then
    ([.attempt u.id .push, .failureLogged u.id .push], .ok ())
  else
    ([.attempt u.id .push], .ok ())

/-- The per-user `try` body of `_send_notifications` (lines 116-129):
email, then SMS when the phone guard holds, then push; an error escaping
any step would jump to the per-user handler, which logs and continues
with the next user. -/
def notify_one_user (g : Nat → NChannel → Bool) (u : DUser) :
    List NotifyEv × Except PyErr Unit :=
  let (e1, r1) := send_email_notification g u
  match r1 with
  | .error _ => (e1 ++ [.userErrorLogged u.id], .ok ())
  | .ok _ =>
    let (e2, r2) :=
      if hasPhone u then send_sms_notification g u else ([], .ok ())
    match r2 with
    | .error _ => (e1 ++ e2 ++ [.userErrorLogged u.id], .ok ())
    | .ok _ =>
      let (e3, r3) := send_push_notification g u
      match r3 with
      | .error _ => (e1 ++ e2 ++ e3 ++ [.userErrorLogged u.id], .ok ())
      | .ok _ => (e1 ++ e2 ++ e3, .ok ())

/-- One iteration of the fanout loop: an uncaught exception from an
earlier iteration would abort the remaining iterations and propagate
(modelled by the short-circuit on `.error`). -/
def notifyStep (g : Nat → NChannel → Bool)
    (acc : List NotifyEv × Except PyErr Unit) (u : DUser) :
    List NotifyEv × Except PyErr Unit :=
  match acc.2 with
  | .error _ => acc
  | .ok _ =>
    let (evs, r) := notify_one_user g u
    (acc.1 ++ evs, r)

/-- `AlertService._send_notifications`: loop over the users. -/
def send_notifications (g : Nat → NChannel → Bool) (users : List DUser) :
    List NotifyEv × Except PyErr Unit :=
  users.foldl (notifyStep g) ([], .ok ())

/-- Projection of a trace to its attempt events. -/
def attemptsOf (evs : List NotifyEv) : List NotifyEv :=
  evs.filter fun e =>
    match e with
    | .attempt _ _ => true
    | _ => false

/-! ### `AlertProcessor.generate_alert_summary`
(incois_integration.py lines 217-235) -/

/-- Severity order list `["low", "medium", "high", "critical"]` used by
the `highest_severity` computation. -/
def severityOrderList : List String :=
  ["low", "medium", "high", "critical"]

/-- Python `list.index`: position of the first occurrence, `ValueError`
when absent. -/
def pyListIndex (l : List String) (x : String) : Except PyErr Nat :=
  match l.findIdx? (· = x) with
  | some i => .ok i
  | none => .error .valueError

/-- Rank of a severity string in the fixed order (total helper for
stating the maximality property; under the claim precondition it agrees
with `pyListIndex severityOrderList`). -/
def sevRank (sv : String) : Nat :=
  severityOrderList.findIdx (· = sv)

/-- Increment the count of key `k` in an insertion-ordered association
list (Python dict semantics: `d[k] = d.get(k, 0) + 1` keeps first-insertion
order). -/
def bumpCount (k : String) : List (String × Nat) → List (String × Nat)
  | [] => [(k, 1)]
  | (k2, n) :: rest =>
    if k2 = k then (k2, n + 1) :: rest else (k2, n) :: bumpCount k rest

/-- Build the `by_severity` / `by_type` dictionaries. -/
def tally (key : Alert → String) (alerts : List Alert) : List (String × Nat) :=
  alerts.foldl (fun m a => bumpCount (key a) m) []

/-- Fold step of Python `max(keys, key=lambda x: severityOrderList.index(x))`:
the current best is replaced only on a strictly larger index, and the
index of every element is evaluated (raising `ValueError` on a severity
outside the list). -/
def maxSevGo (best : String) (bestIdx : Nat) : List String → Except PyErr String
  | [] => .ok best
  | k :: ks =>
    match pyListIndex severityOrderList k with
    | .error e => .error e
    | .ok i => if bestIdx < i then maxSevGo k i ks else maxSevGo best bestIdx ks

/-- Python `max(by_severity.keys(), key=lambda x: [...].index(x))`. -/
def maxKeyBySeverityIndex : List String → Except PyErr String
  | [] => .error .valueError
  | k :: ks =>
    match pyListIndex severityOrderList k with
    | .error e => .error e
    | .ok i => maxSevGo k i ks

/-- Fold step of Python `max(by_type.items(), key=lambda x: x[1])`
(first maximum wins; the key function cannot raise here). -/
def maxCountGo (best : String × Nat) : List (String × Nat) → String × Nat
  | [] => best
  | p :: ps => if best.2 < p.2 then maxCountGo p ps else maxCountGo best ps

/-- `most_common_type`: key of the first maximal count, `none` for an
empty dictionary. -/
def mostCommonType (byType : List (String × Nat)) : Option String :=
  match byType with
  | [] => none
  | p :: ps => some (maxCountGo p ps).1

/-- Result record of `generate_alert_summary`. -/
structure AlertSummary where
  total_alerts : Nat
  by_severity : List (String × Nat)
  by_type : List (String × Nat)
  most_common_type : Option String
  highest_severity : Option String
  deriving Repr, DecidableEq

/-- `AlertProcessor.generate_alert_summary`: empty input short-circuits;
otherwise the dictionaries are tallied and the two `max` computations
run, the severity one indexing every key into the fixed order list (and
raising `ValueError` for a severity outside it). -/
def generate_alert_summary (alerts : List Alert) : Except PyErr AlertSummary :=
  if alerts = [] then
    .ok { total_alerts := 0, by_severity := [], by_type := [],
          most_common_type := none, highest_severity := none }
  else
    let bySev := tally (fun a => a.severity) alerts
    let byType := tally (fun a => a.alert_type) alerts
    match maxKeyBySeverityIndex (bySev.map (·.1)) with
    | .error e => .error e
    | .ok hs =>
      .ok { total_alerts := alerts.length
            by_severity := bySev
            by_type := byType
            most_common_type := mostCommonType byType
            highest_severity := some hs }

/-! ### `create_hazard_report` endpoint validation (backend/main.py
lines 100-165)

Only the pure validation and row construction is embedded: the file
upload branch, hotspot trigger and Redis publish are external effects,
and authentication is a FastAPI dependency outside the endpoint body.
The only `HTTPException` the body itself raises on form content is the
400 for an invalid hazard type; `severity` is copied into the row
without any check. -/

/-- The fixed allowed hazard-type list of the endpoint. -/
def valid_hazard_types : List String :=
  ["tsunami", "storm_surge", "high_waves", "swell_surge",
   "coastal_current", "flooding", "abnormal_tide", "other"]

/-- The form fields of `POST /reports`. -/
structure ReportForm where
  title : String
  description : String
  hazard_type : String
  severity : String
  latitude : ℚ
  longitude : ℚ
  deriving Repr, DecidableEq

/-- The stored `HazardReport` row as built by the endpoint (`location`
is kept as the coordinate pair behind the `POINT(lon lat)` WKT string;
`is_verified` takes its column default `False`). -/
structure NewReportRow where
  user_id : Nat
  title : String
  description : String
  hazard_type : String
  severity : String
  longitude : ℚ
  latitude : ℚ
  is_verified : Bool
  deriving Repr, DecidableEq

/-- `create_hazard_report`: reject a hazard type outside the fixed list
with a 400 validation error, otherwise store the row with every field
(including `severity`) copied unchanged. -/
def create_hazard_report (user_id : Nat) (f : ReportForm) :
    Except PyErr NewReportRow :=
  if f.hazard_type ∈ valid_hazard_types then
    .ok { user_id := user_id
          title := f.title
          description := f.description
          hazard_type := f.hazard_type
          severity := f.severity
          longitude := f.longitude
          latitude := f.latitude
          is_verified := false }
  else
    .error (.httpError 400)

/-! ### Concrete fixtures used by counterexamples and witnesses -/

/-- An active crowdsourced tsunami alert created at time 0. -/
def c1Alert : Alert :=
  { id := 0
    alert_type := "tsunami"
    title := "Tsunami Alert"
    message := "A tsunami alert has been issued for your area."
    severity := "high"
    source := "crowdsourced"
    affected_area := none
    is_active := true
    created_at := 0
    expires_at := 86400 }

/-- Backend state holding just `c1Alert`. -/
def c1State : BackendState :=
  { alerts := [c1Alert], user_alerts := [], users := [], next_alert_id := 1 }

/-- A verified high-severity tsunami report arriving 10 minutes after
`c1Alert` was created. -/
def c1Report : HazardReportRow :=
  { id := 1
    title := "Marina Beach"
    hazard_type := "tsunami"
    severity := "high"
    is_verified := true
    created_at := 600 }

/-- The sentiment function used to instantiate the external VADER
parameter in concrete computations (VADER scores text without lexicon
hits as 0). -/
def vaderZero : String → ℚ := fun _ => 0

/-- Hazard probability of a post as computed inside
`process_single_post`. -/
def post_probability (vader : String → ℚ) (p : PostData) : ℚ :=
  calculate_hazard_probability vader (preprocess_text p.content)
    (extract_hazard_keywords (preprocess_text p.content))

/-- The row `process_single_post` persists for a post that passes the
threshold. -/
def post_row (vader : String → ℚ) (p : PostData) : StoredSignal :=
  { platform := p.platform
    post_id := p.post_id
    content := p.content
    hazard_keywords := extract_hazard_keywords (preprocess_text p.content)
    sentiment_score := calculate_sentiment vader (preprocess_text p.content)
    hazard_probability := post_probability vader p }

/-- A benign post: no hazard keyword, no pattern, no urgency word. -/
def helloPost : PostData :=
  { platform := "twitter", post_id := "p1", content := "hello" }

/-- A post matching the pattern groups of two hazard types. -/
def tsunamiFloodPost : PostData :=
  { platform := "twitter", post_id := "p2", content := "tsunami flood" }

/-- The ORM lookup of `mark_alert_read`:
`query(UserAlert).filter(user_id, alert_id).first()`. -/
def findUserAlert (l : List UserAlert) (u a : Nat) : Option UserAlert :=
  l.find? fun x => x.user_id = u ∧ x.alert_id = a

/-- A state holding one unread `UserAlert` row for user 42 and alert 7. -/
def c7State : BackendState :=
  { alerts := [], user_alerts := [UserAlert.mk 42 7 false], users := [],
    next_alert_id := 0 }

/-- An already deactivated alert. -/
def c6InactiveAlert : Alert :=
  { c1Alert with id := 3, is_active := false }

/-- A state holding just the deactivated alert. -/
def c6State : BackendState :=
  { alerts := [c6InactiveAlert], user_alerts := [], users := [],
    next_alert_id := 4 }

/-- A low-severity active alert. -/
def c9LowAlert : Alert :=
  { c1Alert with id := 10, severity := "low" }

/-- A critical-severity active alert. -/
def c9CritAlert : Alert :=
  { c1Alert with id := 11, alert_type := "flooding", severity := "critical" }

/-- An alert whose severity string is outside the fixed order list. -/
def c9BadAlert : Alert :=
  { c1Alert with id := 12, severity := "banana" }

/-- A user with a phone number on record. -/
def c8UserA : DUser :=
  { id := 1, email := "a@example.org", phone_number := some "5550001" }

/-- A user without a phone number. -/
def c8UserB : DUser :=
  { id := 2, email := "b@example.org", phone_number := none }

/-- A gateway on which the email send raises for user 1 and every other
send succeeds. -/
def c8Gateway : Nat → NChannel → Bool :=
  fun uid c => decide (uid = 1 ∧ c = NChannel.email)

end Dolphins

namespace Dolphins

/-! ## Helper lemmas -/

/-- Folding `+c`-if-`P` over a list counts the satisfying elements. -/
theorem foldl_if_add_count {α : Type} (P : α → Bool) (c : ℚ) :
    ∀ (l : List α) (b : ℚ),
      l.foldl (fun acc tp => if P tp then acc + c else acc) b
        = b + c * ((l.filter P).length : ℚ)
  | [], b => by simp
  | x :: xs, b => by
    by_cases h : P x
    · simp only [List.foldl_cons, List.filter_cons, h, if_true,
        foldl_if_add_count P c xs (b + c)]
      push_cast [List.length_cons]
      ring
    · simp only [List.foldl_cons, List.filter_cons, h, if_false,
        foldl_if_add_count P c xs b, Bool.false_eq_true]

/-- Specialisation of `foldl_if_add_count` to the pattern loop of
`calculate_hazard_probability`. -/
theorem pattern_fold_eq (text : String) (b : ℚ) :
    hazard_patterns.foldl
        (fun acc tp => if tp.2.any (hpatSearch text) then acc + 2/10 else acc) b
      = b + 2/10 *
        (((hazard_patterns.filter fun tp => tp.2.any (hpatSearch text)).length : ℚ)) :=
  foldl_if_add_count (fun tp => tp.2.any (hpatSearch text)) (2/10) hazard_patterns b

/-- Closed form of `calculate_hazard_probability` for nonempty text. -/
theorem calc_prob_closed_form (vader : String → ℚ) (text : String)
    (hks : List String) (h : ¬text = "") :
    calculate_hazard_probability vader text hks =
      min ((if hks ≠ [] then 3/10 else 0) +
        2/10 * (((hazard_patterns.filter fun tp =>
          tp.2.any (hpatSearch text)).length : ℚ)) +
        min ((urgencyCount text : ℚ) * (1/10)) (3/10) +
        (if calculate_sentiment vader text < -(1/10) then 2/10 else 0)) 1 := by
  simp only [calculate_hazard_probability, if_neg h, pattern_fold_eq]

/-- Closed form of `process_single_post` through the named abbreviations
`post_probability` and `post_row`. -/
theorem process_single_post_eq (vader : String → ℚ)
    (store : List StoredSignal) (p : PostData) :
    process_single_post vader store p =
      if signalExists store p.platform p.post_id then store
      else if post_probability vader p > 2/10 then store ++ [post_row vader p]
      else store := rfl

/-- Hazard probability of the text "tsunami flood": 0.3 for the nonempty
keyword list plus 0.2 for each of the two matching pattern groups. -/
theorem calc_prob_tsunami_flood :
    calculate_hazard_probability vaderZero "tsunami flood"
      (extract_hazard_keywords "tsunami flood") = 7/10 := by
  have hcount : (hazard_patterns.filter fun tp =>
      tp.2.any (hpatSearch "tsunami flood")).length = 2 := by decide
  have hks : extract_hazard_keywords "tsunami flood" = ["tsunami", "flooding"] := by
    decide
  have hurg : urgencyCount "tsunami flood" = 0 := by decide
  have hne : ¬("tsunami flood" : String) = "" := by decide
  have hl : ¬(["tsunami", "flooding"] : List String) = [] := by decide
  simp only [calculate_hazard_probability, if_neg hne, hks, hurg,
    pattern_fold_eq, hcount, calculate_sentiment, vaderZero]
  norm_num [min_def, hl]

/-- Hazard probability of the text "hello": no keyword, no pattern, no
urgency word, neutral sentiment. -/
theorem calc_prob_hello :
    calculate_hazard_probability vaderZero "hello"
      (extract_hazard_keywords "hello") = 0 := by
  have hcount : (hazard_patterns.filter fun tp =>
      tp.2.any (hpatSearch "hello")).length = 0 := by decide
  have hks : extract_hazard_keywords "hello" = [] := by decide
  have hurg : urgencyCount "hello" = 0 := by decide
  have hne : ¬("hello" : String) = "" := by decide
  simp only [calculate_hazard_probability, if_neg hne, hks, hurg,
    pattern_fold_eq, hcount, calculate_sentiment, vaderZero]
  norm_num [min_def]

/-- Probability computed by `process_single_post` for `tsunamiFloodPost`. -/
theorem post_probability_tf :
    post_probability vaderZero tsunamiFloodPost = 7/10 := by
  show calculate_hazard_probability vaderZero (preprocess_text "tsunami flood")
    (extract_hazard_keywords (preprocess_text "tsunami flood")) = 7/10
  rw [(by decide : preprocess_text "tsunami flood" = "tsunami flood")]
  exact calc_prob_tsunami_flood

/-- Probability computed by `process_single_post` for `helloPost`. -/
theorem post_probability_hello :
    post_probability vaderZero helloPost = 0 := by
  show calculate_hazard_probability vaderZero (preprocess_text "hello")
    (extract_hazard_keywords (preprocess_text "hello")) = 0
  rw [(by decide : preprocess_text "hello" = "hello")]
  exact calc_prob_hello

/-- A store without a given identity holds zero rows with it. -/
theorem countIdentity_eq_zero {store : List StoredSignal} {pl pid : String}
    (h : signalExists store pl pid = false) : countIdentity store pl pid = 0 := by
  unfold countIdentity
  unfold signalExists at h
  rw [List.any_eq_false] at h
  rw [List.length_eq_zero]
  rw [List.filter_eq_nil_iff]
  intro a ha
  exact fun hc => h a ha hc

/-- The persisted row carries the identity of its post. -/
theorem signalExists_append_row (vader : String → ℚ)
    (store : List StoredSignal) (p : PostData) :
    signalExists (store ++ [post_row vader p]) p.platform p.post_id = true := by
  unfold signalExists post_row
  simp

/-- Appending the persisted row adds exactly one row with the identity of
its post. -/
theorem countIdentity_append_row (vader : String → ℚ)
    (store : List StoredSignal) (p : PostData) :
    countIdentity (store ++ [post_row vader p]) p.platform p.post_id
      = countIdentity store p.platform p.post_id + 1 := by
  unfold countIdentity post_row
  simp

/-- Updating the first match is idempotent: the updated row still is the
first match, and updating it again changes nothing. -/
theorem setReadFirst_idem (u a : Nat) :
    ∀ l : List UserAlert, setReadFirst u a (setReadFirst u a l) = setReadFirst u a l
  | [] => rfl
  | ua :: rest => by
    by_cases h : ua.user_id = u ∧ ua.alert_id = a <;>
      simp [setReadFirst, h, setReadFirst_idem u a rest]

/-- With no matching row, `setReadFirst` changes nothing. -/
theorem setReadFirst_no_match (u a : Nat) :
    ∀ l : List UserAlert, (∀ ua ∈ l, ¬(ua.user_id = u ∧ ua.alert_id = a)) →
      setReadFirst u a l = l
  | [], _ => rfl
  | ua :: rest, h => by
    rw [setReadFirst, if_neg (h ua (List.mem_cons_self ua rest)),
      setReadFirst_no_match u a rest fun x hx => h x (List.mem_cons_of_mem ua hx)]

/-- After `setReadFirst`, the first matching row is the old first match
with `is_read` set. -/
theorem setReadFirst_find (u a : Nat) :
    ∀ (l : List UserAlert) (ua : UserAlert),
      findUserAlert l u a = some ua →
      findUserAlert (setReadFirst u a l) u a = some { ua with is_read := true }
  | [], ua, h => by simp [findUserAlert] at h
  | x :: rest, ua, h => by
    by_cases hx : x.user_id = u ∧ x.alert_id = a
    · rw [findUserAlert, List.find?_cons_of_pos _ (by simpa using hx)] at h
      cases h
      rw [setReadFirst, if_pos hx, findUserAlert,
        List.find?_cons_of_pos _ (by simpa using hx)]
    · rw [findUserAlert, List.find?_cons_of_neg _ (by simpa using hx)] at h
      rw [setReadFirst, if_neg hx, findUserAlert,
        List.find?_cons_of_neg _ (by simpa using hx)]
      exact setReadFirst_find u a rest ua h

/-- `setReadFirst` preserves the number of rows. -/
theorem setReadFirst_length (u a : Nat) :
    ∀ l : List UserAlert, (setReadFirst u a l).length = l.length
  | [] => rfl
  | ua :: rest => by
    by_cases h : ua.user_id = u ∧ ua.alert_id = a <;>
      simp [setReadFirst, h, setReadFirst_length u a rest]

/-- `generate_alert_from_report` always returns `None` and leaves the
state unchanged: for low severities by the gate, for high and critical
because the unbound `db` raises `NameError` into the broad handler. -/
theorem gen_report_alert_none (s : BackendState) (now : Int)
    (r : HazardReportRow) : generate_alert_from_report s now r = (none, s) := by
  by_cases h : r.severity = "high" ∨ r.severity = "critical" <;>
    simp [generate_alert_from_report, generate_alert_body, h]

/-- The expiry sweep never changes an alert id. -/
theorem deactivate_id (now : Int) (a : Alert) :
    (deactivate_if_expired now a).id = a.id := by
  unfold deactivate_if_expired
  split <;> rfl

/-- The expiry sweep leaves an inactive alert entirely unchanged. -/
theorem deactivate_inactive (now : Int) {a : Alert} (h : a.is_active = false) :
    deactivate_if_expired now a = a := by
  simp [deactivate_if_expired, h]

/-- One lifecycle operation preserves an inactive alert row: inserts
append fresh rows, the sweep only touches active rows, read receipts and
the broken report path do not touch the alerts table. -/
theorem findAlert_inactive_applyOp (s : BackendState) (i : Nat) (a : Alert)
    (hf : findAlert s i = some a) (hi : a.is_active = false) (op : BOp) :
    findAlert (applyOp s op) i = some a := by
  have hmap : findAlert { s with
      alerts := s.alerts.map (deactivate_if_expired (match op with
        | .cleanup now => now
        | _ => 0)) } i = some a := by
    unfold findAlert at hf ⊢
    rw [List.find?_map]
    have hpred : ((fun x : Alert => decide (x.id = i)) ∘
        deactivate_if_expired (match op with | .cleanup now => now | _ => 0))
        = fun x : Alert => decide (x.id = i) := by
      funext x
      rw [Function.comp_apply, deactivate_id]
    rw [hpred, hf]
    simp [deactivate_inactive _ hi]
  cases op with
  | createAlert now ty t m sv ar src =>
    show findAlert (create_alert s now ty t m sv ar src).2 i = some a
    unfold findAlert at hf ⊢
    simp only [create_alert, List.find?_append, hf]
    rfl
  | storeIncois it =>
    show findAlert (store_incois_alert s it) i = some a
    unfold store_incois_alert
    split
    · exact hf
    · unfold findAlert at hf ⊢
      simp only [List.find?_append, hf]
      rfl
  | cleanup now =>
    exact hmap
  | markRead u al =>
    exact hf
  | genReportAlert now r =>
    show findAlert (generate_alert_from_report s now r).2 i = some a
    rw [gen_report_alert_none]
    exact hf

/-- Inactive alert rows survive every sequence of lifecycle
operations unchanged. -/
theorem findAlert_inactive_applyOps (i : Nat) (a : Alert)
    (hi : a.is_active = false) :
    ∀ (ops : List BOp) (s : BackendState), findAlert s i = some a →
      findAlert (applyOps s ops) i = some a
  | [], _, hf => hf
  | op :: ops, s, hf =>
    findAlert_inactive_applyOps i a hi ops (applyOp s op)
      (findAlert_inactive_applyOp s i a hf hi op)

/-- The per-user notification pass never raises, and its attempted
channels — email, SMS exactly when the phone guard holds, push — do not
depend on which gateway calls fail. -/
theorem notify_one_user_spec (g : Nat → NChannel → Bool) (u : DUser) :
    (notify_one_user g u).2 = .ok () ∧
    attemptsOf (notify_one_user g u).1
      = NotifyEv.attempt u.id .email ::
        ((if hasPhone u then [NotifyEv.attempt u.id .sms] else []) ++
          [NotifyEv.attempt u.id .push]) := by
  unfold notify_one_user send_email_notification send_sms_notification
    send_push_notification
  by_cases he : g u.id .email = true <;>
    by_cases hp : hasPhone u = true <;>
      by_cases hs : g u.id .sms = true <;>
        by_cases hpu : g u.id .push = true <;>
          simp [he, hp, hs, hpu, attemptsOf]

/-- Closed form of the fanout fold: every user is processed and the loop
finishes normally. -/
theorem send_notifications_aux (g : Nat → NChannel → Bool) :
    ∀ (users : List DUser) (acc : List NotifyEv),
      users.foldl (notifyStep g) (acc, .ok ())
        = (acc ++ (users.map fun u => (notify_one_user g u).1).flatten,
            Except.ok ())
  | [], acc => by simp
  | u :: us, acc => by
    have hone := (notify_one_user_spec g u).1
    have hstep : notifyStep g (acc, .ok ()) u
        = (acc ++ (notify_one_user g u).1, .ok ()) := by
      unfold notifyStep
      simp [hone]
    rw [List.foldl_cons, hstep,
      send_notifications_aux g us (acc ++ (notify_one_user g u).1)]
    simp

/-- `send_notifications` as the concatenation of the per-user traces. -/
theorem send_notifications_eq (g : Nat → NChannel → Bool)
    (users : List DUser) :
    send_notifications g users
      = ((users.map fun u => (notify_one_user g u).1).flatten,
          Except.ok ()) := by
  rw [send_notifications, send_notifications_aux g users []]
  simp

/-- `findIdx?` of a present element returns its `findIdx` position. -/
theorem findIdxQ_of_mem : ∀ (l : List String) (x : String), x ∈ l →
    l.findIdx? (fun y => y = x) = some (l.findIdx (fun y => y = x))
  | [], x, h => absurd h (List.not_mem_nil x)
  | y :: ys, x, h => by
    by_cases hy : y = x
    · simp [List.findIdx?_cons, List.findIdx_cons, hy]
    · have hx : x ∈ ys := by
        rcases List.mem_cons.mp h with h1 | h1
        · exact absurd h1.symm hy
        · exact h1
      simp [List.findIdx?_cons, List.findIdx_cons, hy, findIdxQ_of_mem ys x hx]

/-- `findIdx?` of an absent element returns `none`. -/
theorem findIdxQ_of_not_mem : ∀ (l : List String) (x : String), ¬x ∈ l →
    l.findIdx? (fun y => y = x) = none
  | [], _, _ => rfl
  | y :: ys, x, h => by
    have hy : ¬y = x := fun he => h (by rw [← he]; exact List.mem_cons_self y ys)
    have hx : ¬x ∈ ys := fun hm => h (List.mem_cons_of_mem y hm)
    simp [List.findIdx?_cons, hy, findIdxQ_of_not_mem ys x hx]

/-- `list.index` on a severity in the fixed order list returns its
rank. -/
theorem pyListIndex_of_mem {x : String} (h : x ∈ severityOrderList) :
    pyListIndex severityOrderList x = .ok (sevRank x) := by
  unfold pyListIndex sevRank
  rw [findIdxQ_of_mem _ x h]

/-- `list.index` on a severity outside the fixed order list raises
`ValueError`. -/
theorem pyListIndex_of_not_mem {x : String} (h : ¬x ∈ severityOrderList) :
    pyListIndex severityOrderList x = .error .valueError := by
  unfold pyListIndex
  rw [findIdxQ_of_not_mem _ x h]

/-- The `max` fold over in-range keys is total and returns a maximum
under the severity rank. -/
theorem maxSevGo_spec : ∀ (ks : List String) (best : String),
    (∀ k ∈ ks, k ∈ severityOrderList) →
    ∃ r, maxSevGo best (sevRank best) ks = .ok r ∧
      (r = best ∨ r ∈ ks) ∧ sevRank best ≤ sevRank r ∧
      ∀ k ∈ ks, sevRank k ≤ sevRank r
  | [], best, _ => ⟨best, rfl, .inl rfl, le_refl _, by simp⟩
  | k :: ks, best, h => by
    have hk := h k (List.mem_cons_self k ks)
    have hks : ∀ k2 ∈ ks, k2 ∈ severityOrderList :=
      fun k2 hm => h k2 (List.mem_cons_of_mem k hm)
    simp only [maxSevGo, pyListIndex_of_mem hk]
    by_cases hlt : sevRank best < sevRank k
    · rw [if_pos hlt]
      obtain ⟨r, hr, hmem, hge, hall⟩ := maxSevGo_spec ks k hks
      refine ⟨r, hr, ?_, le_trans (le_of_lt hlt) hge, ?_⟩
      · rcases hmem with rfl | hm
        · exact .inr (List.mem_cons_self _ _)
        · exact .inr (List.mem_cons_of_mem _ hm)
      · intro k2 hk2
        rcases List.mem_cons.mp hk2 with rfl | hm
        · exact hge
        · exact hall k2 hm
    · rw [if_neg hlt]
      obtain ⟨r, hr, hmem, hge, hall⟩ := maxSevGo_spec ks best hks
      refine ⟨r, hr, hmem.imp id (List.mem_cons_of_mem k), hge, ?_⟩
      intro k2 hk2
      rcases List.mem_cons.mp hk2 with rfl | hm
      · exact le_trans (not_lt.mp hlt) hge
      · exact hall k2 hm

/-- The `max` fold raises as soon as any key is outside the order
list. -/
theorem maxSevGo_error : ∀ (ks : List String) (best : String) (bi : Nat),
    (∃ k ∈ ks, ¬k ∈ severityOrderList) →
    maxSevGo best bi ks = .error .valueError
  | [], _, _, h => absurd h (by simp)
  | k :: ks, best, bi, h => by
    by_cases hk : k ∈ severityOrderList
    · have hbad : ∃ k2 ∈ ks, ¬k2 ∈ severityOrderList := by
        obtain ⟨k2, hm, hb⟩ := h
        rcases List.mem_cons.mp hm with rfl | hm2
        · exact absurd hk hb
        · exact ⟨k2, hm2, hb⟩
      simp only [maxSevGo, pyListIndex_of_mem hk]
      by_cases hlt : bi < sevRank k
      · rw [if_pos hlt]
        exact maxSevGo_error ks k (sevRank k) hbad
      · rw [if_neg hlt]
        exact maxSevGo_error ks best bi hbad
    · simp only [maxSevGo, pyListIndex_of_not_mem hk]

/-- Python `max(keys, key=severity index)` on nonempty in-range keys. -/
theorem maxKey_spec : ∀ (ks : List String), ks ≠ [] →
    (∀ k ∈ ks, k ∈ severityOrderList) →
    ∃ r, maxKeyBySeverityIndex ks = .ok r ∧ r ∈ ks ∧
      ∀ k ∈ ks, sevRank k ≤ sevRank r
  | [], h, _ => absurd rfl h
  | k :: ks, _, h => by
    have hk := h k (List.mem_cons_self k ks)
    simp only [maxKeyBySeverityIndex, pyListIndex_of_mem hk]
    obtain ⟨r, hr, hmem, hge, hall⟩ :=
      maxSevGo_spec ks k fun k2 hm => h k2 (List.mem_cons_of_mem k hm)
    refine ⟨r, hr, ?_, ?_⟩
    · rcases hmem with rfl | hm
      · exact List.mem_cons_self _ _
      · exact List.mem_cons_of_mem _ hm
    · intro k2 hk2
      rcases List.mem_cons.mp hk2 with rfl | hm
      · exact hge
      · exact hall k2 hm

/-- Python `max(keys, key=severity index)` raises when any key is
outside the order list. -/
theorem maxKey_error : ∀ (ks : List String),
    (∃ k ∈ ks, ¬k ∈ severityOrderList) →
    maxKeyBySeverityIndex ks = .error .valueError
  | [], h => absurd h (by simp)
  | k :: ks, h => by
    by_cases hk : k ∈ severityOrderList
    · have hbad : ∃ k2 ∈ ks, ¬k2 ∈ severityOrderList := by
        obtain ⟨k2, hm, hb⟩ := h
        rcases List.mem_cons.mp hm with rfl | hm2
        · exact absurd hk hb
        · exact ⟨k2, hm2, hb⟩
      simp only [maxKeyBySeverityIndex, pyListIndex_of_mem hk]
      exact maxSevGo_error ks k (sevRank k) hbad
    · simp only [maxKeyBySeverityIndex, pyListIndex_of_not_mem hk]

/-- Keys of a bumped dictionary: the old keys plus possibly the bumped
one. -/
theorem bumpCount_keys (k0 k : String) : ∀ (m : List (String × Nat)),
    (k ∈ (bumpCount k0 m).map Prod.fst ↔ k ∈ m.map Prod.fst ∨ k = k0)
  | [] => by simp [bumpCount]
  | (k2, n) :: rest => by
    by_cases h2 : k2 = k0
    · subst h2
      simp [bumpCount]
      tauto
    · simp only [bumpCount, if_neg h2, List.map_cons, List.mem_cons,
        bumpCount_keys k0 k rest]
      tauto

/-- Keys of the tally fold: old keys plus the keys of the processed
alerts. -/
theorem tally_aux (key : Alert → String) (k : String) :
    ∀ (alerts : List Alert) (m : List (String × Nat)),
      (k ∈ (alerts.foldl (fun m2 a => bumpCount (key a) m2) m).map Prod.fst ↔
        k ∈ m.map Prod.fst ∨ ∃ a ∈ alerts, key a = k)
  | [], m => by simp
  | a :: rest, m => by
    rw [List.foldl_cons, tally_aux key k rest (bumpCount (key a) m)]
    constructor
    · rintro (hin | hex)
      · rcases (bumpCount_keys (key a) k m).mp hin with hm | hk
        · exact .inl hm
        · exact .inr ⟨a, List.mem_cons_self a rest, hk.symm⟩
      · obtain ⟨b, hb, hbk⟩ := hex
        exact .inr ⟨b, List.mem_cons_of_mem a hb, hbk⟩
    · rintro (hm | ⟨b, hb, hbk⟩)
      · exact .inl ((bumpCount_keys (key a) k m).mpr (.inl hm))
      · rcases List.mem_cons.mp hb with rfl | hb2
        · exact .inl ((bumpCount_keys (key b) k m).mpr (.inr hbk.symm))
        · exact .inr ⟨b, hb2, hbk⟩

/-- A key occurs in a tally dictionary exactly when some alert produced
it. -/
theorem tally_keys_mem (key : Alert → String) (alerts : List Alert)
    (k : String) :
    k ∈ (tally key alerts).map Prod.fst ↔ ∃ a ∈ alerts, key a = k := by
  have h := tally_aux key k alerts []
  simpa [tally] using h

end Dolphins

namespace Dolphins

/-! ## Claim theorems -/

/-- C1 (code_bug): the suppression path of
`AlertService.generate_alert_from_report` is dead code.  The method body
reads the unbound local `db`, so for every high or critical report the
`NameError` is swallowed by the broad `except` and the method returns
`None` without creating an alert and without returning the identity of
the suppressing alert.  The second and third conjuncts evaluate the
failing input: `c1State` does contain an active alert of the same
`(alert_type, source)` created 10 minutes before the report (the
suppression query, had it run, would have found it), yet the call
returns `None`. -/
theorem c1_suppression_path_returns_none :
    (∀ (s : BackendState) (now : Int) (r : HazardReportRow),
        generate_alert_from_report s now r = (none, s)) ∧
    find_suppressing_alert c1State 600 "tsunami" = some c1Alert ∧
    c1Alert.source = "crowdsourced" ∧ c1Report.severity = "high" ∧
    generate_alert_from_report c1State 600 c1Report = (none, c1State) :=
  ⟨fun s now r => gen_report_alert_none s now r, by decide, rfl, rfl,
    gen_report_alert_none c1State 600 c1Report⟩

/-- C2 counterexample: on the text "tsunami flood" the pattern loop adds
+0.2 twice (once for the tsunami group, once for the flooding group),
giving a pattern contribution of 0.4 and a total probability of 0.7,
whereas a bonus of at most once in total would contribute at most 0.2
(here `pattern_bonus_spec` gives exactly 0.2, for a total of 0.5). -/
theorem c2_pattern_bonus_counterexample :
    pattern_bonus_code "tsunami flood" = 2/5 ∧
    pattern_bonus_spec "tsunami flood" = 1/5 ∧
    calculate_hazard_probability vaderZero "tsunami flood"
      (extract_hazard_keywords "tsunami flood") = 7/10 := by
  have hcount : (hazard_patterns.filter fun tp =>
      tp.2.any (hpatSearch "tsunami flood")).length = 2 := by decide
  have hany : (hazard_patterns.any fun tp =>
      tp.2.any (hpatSearch "tsunami flood")) = true := by decide
  have hks : extract_hazard_keywords "tsunami flood" = ["tsunami", "flooding"] := by
    decide
  have hurg : urgencyCount "tsunami flood" = 0 := by decide
  have hne : ¬("tsunami flood" : String) = "" := by decide
  refine ⟨?_, ?_, ?_⟩
  · rw [pattern_bonus_code, pattern_fold_eq, hcount]
    norm_num
  · rw [pattern_bonus_spec, if_pos hany]
    norm_num
  · have hl : ¬(["tsunami", "flooding"] : List String) = [] := by decide
    simp only [calculate_hazard_probability, if_neg hne, hks, hurg,
      pattern_fold_eq, hcount, calculate_sentiment, vaderZero]
    norm_num [min_def, hl]

/-- C2 (corrected): the +0.2 regex bonus is added once per hazard-type
pattern group with at least one matching pattern — at most once per
hazard type (the inner `break`), not at most once in total — so the
pattern contribution is 0.2 times the number of matching groups, and
the probability decomposes accordingly for nonempty text. -/
theorem c2_pattern_bonus_per_hazard_type (vader : String → ℚ)
    (text : String) (hks : List String) :
    pattern_bonus_code text =
      2/10 * (((hazard_patterns.filter fun tp =>
        tp.2.any (hpatSearch text)).length : ℚ)) ∧
    (hazard_patterns.filter fun tp =>
      tp.2.any (hpatSearch text)).length ≤ 5 ∧
    (text ≠ "" →
      calculate_hazard_probability vader text hks =
        min ((if hks ≠ [] then 3/10 else 0) + pattern_bonus_code text +
          min ((urgencyCount text : ℚ) * (1/10)) (3/10) +
          (if calculate_sentiment vader text < -(1/10) then 2/10 else 0)) 1) := by
  refine ⟨?_, ?_, ?_⟩
  · rw [pattern_bonus_code, pattern_fold_eq]
    ring
  · calc (hazard_patterns.filter fun tp => tp.2.any (hpatSearch text)).length
        ≤ hazard_patterns.length := List.length_filter_le _ _
      _ = 5 := rfl
  · intro h
    simp only [calculate_hazard_probability, pattern_bonus_code, if_neg h,
      pattern_fold_eq]
    congr 1
    ring

/-- C2 witness: the decomposition evaluated at a concrete input. -/
theorem c2_pattern_bonus_per_hazard_type_witness :
    calculate_hazard_probability vaderZero "tsunami flood" ["tsunami"] =
      min ((if (["tsunami"] : List String) ≠ [] then 3/10 else 0) +
        pattern_bonus_code "tsunami flood" +
        min ((urgencyCount "tsunami flood" : ℚ) * (1/10)) (3/10) +
        (if calculate_sentiment vaderZero "tsunami flood" < -(1/10)
          then 2/10 else 0)) 1 :=
  (c2_pattern_bonus_per_hazard_type vaderZero "tsunami flood" ["tsunami"]).2.2
    (by decide)

/-- C8 (confirmed): the fanout never raises; the set of attempted
channel sends — email and push for every user, SMS exactly for users
with a phone number — is identical to that of a failure-free run, so in
particular an email-channel failure for a user never suppresses the SMS
or push attempt for that same user nor the processing of any other
user. -/
theorem c8_fanout_failure_isolation (g : Nat → NChannel → Bool)
    (users : List DUser) (u : DUser) :
    (send_notifications g users).2 = .ok () ∧
    attemptsOf (send_notifications g users).1
      = attemptsOf (send_notifications (fun _ _ => false) users).1 ∧
    (u ∈ users →
      NotifyEv.attempt u.id .email ∈ (send_notifications g users).1 ∧
      NotifyEv.attempt u.id .push ∈ (send_notifications g users).1 ∧
      (hasPhone u = true →
        NotifyEv.attempt u.id .sms ∈ (send_notifications g users).1)) := by
  have hev : ∀ (g2 : Nat → NChannel → Bool),
      attemptsOf (send_notifications g2 users).1
        = ((users.map fun v =>
            NotifyEv.attempt v.id .email ::
              ((if hasPhone v then [NotifyEv.attempt v.id .sms] else []) ++
                [NotifyEv.attempt v.id .push])).flatten) := by
    intro g2
    rw [send_notifications_eq g2 users]
    unfold attemptsOf
    rw [List.filter_flatten, List.map_map]
    congr 1
    apply List.map_congr_left
    intro v _
    exact (notify_one_user_spec g2 v).2
  refine ⟨?_, ?_, ?_⟩
  · rw [send_notifications_eq g users]
  · rw [hev g, hev (fun _ _ => false)]
  · intro hu
    have hmem : ∀ e, e ∈ attemptsOf (send_notifications g users).1 →
        e ∈ (send_notifications g users).1 := by
      intro e he
      exact List.mem_of_mem_filter he
    have hself : ∀ (e : NotifyEv),
        e ∈ (NotifyEv.attempt u.id .email ::
          ((if hasPhone u then [NotifyEv.attempt u.id .sms] else []) ++
            [NotifyEv.attempt u.id .push])) →
        e ∈ attemptsOf (send_notifications g users).1 := by
      intro e he
      rw [hev g]
      exact List.mem_flatten_of_mem (List.mem_map_of_mem _ hu) he
    refine ⟨hmem _ (hself _ ?_), hmem _ (hself _ ?_), fun hp => hmem _ (hself _ ?_)⟩
    · exact List.mem_cons_self _ _
    · exact List.mem_cons_of_mem _ (List.mem_append_right _ (List.mem_singleton.mpr rfl))
    · exact List.mem_cons_of_mem _ (List.mem_append_left _ (by rw [if_pos hp]; exact List.mem_singleton.mpr rfl))

/-- C8 witness: with the email gateway failing for user 1, both users
still get their full attempt set and the fanout returns normally. -/
theorem c8_fanout_failure_isolation_witness :
    (send_notifications c8Gateway [c8UserA, c8UserB]).2 = .ok () ∧
    NotifyEv.attempt c8UserA.id .email
      ∈ (send_notifications c8Gateway [c8UserA, c8UserB]).1 ∧
    NotifyEv.attempt c8UserA.id .push
      ∈ (send_notifications c8Gateway [c8UserA, c8UserB]).1 ∧
    NotifyEv.attempt c8UserA.id .sms
      ∈ (send_notifications c8Gateway [c8UserA, c8UserB]).1 :=
  have h := c8_fanout_failure_isolation c8Gateway [c8UserA, c8UserB] c8UserA
  have h3 := h.2.2 (by decide)
  ⟨h.1, h3.1, h3.2.1, h3.2.2 (by decide)⟩

/-- C9 (confirmed): on a nonempty alert list whose severities all lie in
the fixed list `["low", "medium", "high", "critical"]`, the summary is
total and `highest_severity` is a severity occurring in the list that is
maximal under the index order; and whenever any alert carries a severity
outside that list, the `list.index` call raises `ValueError` — the error
branch is reachable. -/
theorem c9_highest_severity_by_index (alerts : List Alert) :
    (alerts ≠ [] → (∀ a ∈ alerts, a.severity ∈ severityOrderList) →
      ∃ sm hs, generate_alert_summary alerts = .ok sm ∧
        sm.highest_severity = some hs ∧ (∃ a ∈ alerts, a.severity = hs) ∧
        ∀ a ∈ alerts, sevRank a.severity ≤ sevRank hs) ∧
    ((∃ a ∈ alerts, ¬a.severity ∈ severityOrderList) →
      generate_alert_summary alerts = .error .valueError) := by
  constructor
  · intro hne hall
    have hkeys : ∀ k ∈ (tally (fun a => a.severity) alerts).map Prod.fst,
        k ∈ severityOrderList := by
      intro k hk
      obtain ⟨a, ha, hak⟩ :=
        (tally_keys_mem (fun a => a.severity) alerts k).mp hk
      exact hak ▸ hall a ha
    have hkne : (tally (fun a => a.severity) alerts).map Prod.fst ≠ [] := by
      obtain ⟨a, ha⟩ := List.exists_mem_of_ne_nil alerts hne
      exact List.ne_nil_of_mem
        ((tally_keys_mem (fun a => a.severity) alerts a.severity).mpr
          ⟨a, ha, rfl⟩)
    obtain ⟨r, hr, hrmem, hrmax⟩ := maxKey_spec _ hkne hkeys
    refine ⟨{ total_alerts := alerts.length
              by_severity := tally (fun a => a.severity) alerts
              by_type := tally (fun a => a.alert_type) alerts
              most_common_type :=
                mostCommonType (tally (fun a => a.alert_type) alerts)
              highest_severity := some r }, r, ?_, rfl, ?_, ?_⟩
    · simp only [generate_alert_summary, if_neg hne, hr]
    · exact (tally_keys_mem (fun a => a.severity) alerts r).mp hrmem
    · intro a ha
      exact hrmax a.severity
        ((tally_keys_mem (fun a => a.severity) alerts a.severity).mpr
          ⟨a, ha, rfl⟩)
  · rintro ⟨a, ha, hbad⟩
    have hne : alerts ≠ [] := List.ne_nil_of_mem ha
    have hkbad : ∃ k ∈ (tally (fun a => a.severity) alerts).map Prod.fst,
        ¬k ∈ severityOrderList :=
      ⟨a.severity,
        (tally_keys_mem (fun a => a.severity) alerts a.severity).mpr
          ⟨a, ha, rfl⟩, hbad⟩
    simp only [generate_alert_summary, if_neg hne, maxKey_error _ hkbad]

/-- C9 witness: the summary of a low and a critical alert is total with
a well-defined maximum, and a "banana" severity raises. -/
theorem c9_highest_severity_by_index_witness :
    (∃ sm hs, generate_alert_summary [c9LowAlert, c9CritAlert] = .ok sm ∧
      sm.highest_severity = some hs ∧
      (∃ a ∈ [c9LowAlert, c9CritAlert], a.severity = hs) ∧
      ∀ a ∈ [c9LowAlert, c9CritAlert],
        sevRank a.severity ≤ sevRank hs) ∧
    generate_alert_summary [c9BadAlert] = .error .valueError :=
  ⟨(c9_highest_severity_by_index [c9LowAlert, c9CritAlert]).1 (by decide)
      (by decide),
   (c9_highest_severity_by_index [c9BadAlert]).2
     ⟨c9BadAlert, List.mem_cons_self _ _, by decide⟩⟩

/-- C10 (confirmed): `create_hazard_report` raises its 400 validation
error exactly when `hazard_type` is outside the fixed allowed list, and
on success the `severity` string — never validated — is stored
unchanged, whatever it is. -/
theorem c10_hazard_type_validation (uid : Nat) (f : ReportForm) :
    ((∃ r, create_hazard_report uid f = .ok r) ↔
      f.hazard_type ∈ valid_hazard_types) ∧
    (f.hazard_type ∈ valid_hazard_types →
      create_hazard_report uid f =
        .ok { user_id := uid
              title := f.title
              description := f.description
              hazard_type := f.hazard_type
              severity := f.severity
              longitude := f.longitude
              latitude := f.latitude
              is_verified := false }) ∧
    (f.hazard_type ∉ valid_hazard_types →
      create_hazard_report uid f = .error (.httpError 400)) := by
  unfold create_hazard_report
  by_cases h : f.hazard_type ∈ valid_hazard_types <;> simp [h]

/-- C3 (confirmed): for every text (the empty string included) and every
keyword list, the computed hazard probability lies in [0, 1], and —
under the external VADER contract that compound scores lie in [-1, 1] —
the computed sentiment score lies in [-1, 1]. -/
theorem c3_probability_and_sentiment_bounds (vader : String → ℚ)
    (hv : ∀ t, -1 ≤ vader t ∧ vader t ≤ 1) (text : String)
    (hks : List String) :
    0 ≤ calculate_hazard_probability vader text hks ∧
    calculate_hazard_probability vader text hks ≤ 1 ∧
    -1 ≤ calculate_sentiment vader text ∧
    calculate_sentiment vader text ≤ 1 := by
  have hsent : -1 ≤ calculate_sentiment vader text ∧
      calculate_sentiment vader text ≤ 1 := by
    unfold calculate_sentiment
    by_cases h : text = ""
    · rw [if_pos h]
      norm_num
    · rw [if_neg h]
      exact hv text
  by_cases h : text = ""
  · refine ⟨?_, ?_, hsent.1, hsent.2⟩ <;>
      simp [calculate_hazard_probability, if_pos h]
  · rw [calc_prob_closed_form vader text hks h]
    refine ⟨?_, min_le_right _ _, hsent.1, hsent.2⟩
    have h1 : (0:ℚ) ≤ if hks ≠ [] then 3/10 else 0 := by
      split <;> norm_num
    have h2 : (0:ℚ) ≤ 2/10 * (((hazard_patterns.filter fun tp =>
        tp.2.any (hpatSearch text)).length : ℚ)) := by positivity
    have h3 : (0:ℚ) ≤ min ((urgencyCount text : ℚ) * (1/10)) (3/10) :=
      le_min (by positivity) (by norm_num)
    have h4 : (0:ℚ) ≤ if calculate_sentiment vader text < -(1/10)
        then 2/10 else 0 := by
      split <;> norm_num
    refine le_min (by linarith) (by norm_num)

/-- C3 witness: the bounds evaluated at a concrete text with the neutral
sentiment function. -/
theorem c3_probability_and_sentiment_bounds_witness :
    0 ≤ calculate_hazard_probability vaderZero "tsunami flood" ["tsunami"] ∧
    calculate_hazard_probability vaderZero "tsunami flood" ["tsunami"] ≤ 1 ∧
    -1 ≤ calculate_sentiment vaderZero "tsunami flood" ∧
    calculate_sentiment vaderZero "tsunami flood" ≤ 1 :=
  c3_probability_and_sentiment_bounds vaderZero
    (fun t => by constructor <;> norm_num [vaderZero]) "tsunami flood"
    ["tsunami"]

/-- C4 counterexample: the post "hello" computes hazard probability 0,
so processing it twice from an empty store stores nothing — zero rows
with its identity exist afterwards, not exactly one. -/
theorem c4_ingest_twice_counterexample :
    process_single_post vaderZero
        (process_single_post vaderZero [] helloPost) helloPost = [] ∧
    countIdentity
        (process_single_post vaderZero
          (process_single_post vaderZero [] helloPost) helloPost)
        helloPost.platform helloPost.post_id = 0 := by
  have hno : ¬(signalExists [] helloPost.platform helloPost.post_id = true) := by
    decide
  have hle : ¬(post_probability vaderZero helloPost > 2/10) := by
    rw [post_probability_hello]
    norm_num
  have h1 : process_single_post vaderZero [] helloPost = [] := by
    rw [process_single_post_eq, if_neg hno, if_neg hle]
  refine ⟨?_, ?_⟩
  · rw [h1, h1]
  · rw [h1, h1]
    rfl

/-- C4 (corrected): ingestion is idempotent on `(platform, post_id)` —
re-ingesting an already stored identity is a no-op, and processing the
same post twice equals processing it once — but the row count after two
runs from a store without that identity is one exactly when the computed
hazard probability exceeds 0.2, and zero otherwise (a filtered-out post
is never stored, so "exactly one" fails for it). -/
theorem c4_ingest_idempotent (vader : String → ℚ)
    (store : List StoredSignal) (p : PostData) :
    (signalExists store p.platform p.post_id = true →
      process_single_post vader store p = store) ∧
    process_single_post vader (process_single_post vader store p) p
      = process_single_post vader store p ∧
    (signalExists store p.platform p.post_id = false →
      countIdentity
          (process_single_post vader (process_single_post vader store p) p)
          p.platform p.post_id
        = if post_probability vader p > 2/10 then 1 else 0) := by
  by_cases hex : signalExists store p.platform p.post_id = true
  · have h1 : process_single_post vader store p = store := by
      rw [process_single_post_eq, if_pos hex]
    refine ⟨fun _ => h1, ?_, ?_⟩
    · rw [h1, h1]
    · intro hfalse
      rw [hex] at hfalse
      exact absurd hfalse (by simp)
  · by_cases hp : post_probability vader p > 2/10
    · have h1 : process_single_post vader store p
          = store ++ [post_row vader p] := by
        rw [process_single_post_eq, if_neg hex, if_pos hp]
      have h2 : process_single_post vader
          (store ++ [post_row vader p]) p = store ++ [post_row vader p] := by
        rw [process_single_post_eq, if_pos (signalExists_append_row vader store p)]
      refine ⟨fun h => absurd h hex, by rw [h1, h2], ?_⟩
      intro hfalse
      rw [h1, h2, if_pos hp, countIdentity_append_row,
        countIdentity_eq_zero hfalse]
    · have h1 : process_single_post vader store p = store := by
        rw [process_single_post_eq, if_neg hex, if_neg hp]
      refine ⟨fun h => absurd h hex, by rw [h1, h1], ?_⟩
      intro hfalse
      rw [h1, h1, if_neg hp, countIdentity_eq_zero hfalse]

/-- C4 witness: the corrected count evaluated for the stored
"tsunami flood" post processed twice from the empty store. -/
theorem c4_ingest_idempotent_witness :
    countIdentity
        (process_single_post vaderZero
          (process_single_post vaderZero [] tsunamiFloodPost) tsunamiFloodPost)
        tsunamiFloodPost.platform tsunamiFloodPost.post_id
      = if post_probability vaderZero tsunamiFloodPost > 2/10 then 1 else 0 :=
  (c4_ingest_idempotent vaderZero [] tsunamiFloodPost).2.2 (by decide)

/-- C5 (confirmed): a post whose identity is not yet stored is persisted
exactly when its computed hazard probability is strictly greater than
0.2, and a post at or below the threshold always leaves the store
unchanged. -/
theorem c5_persist_iff_above_threshold (vader : String → ℚ)
    (store : List StoredSignal) (p : PostData) :
    (¬(post_probability vader p > 2/10) →
      process_single_post vader store p = store) ∧
    (signalExists store p.platform p.post_id = false →
      (process_single_post vader store p = store ++ [post_row vader p] ↔
        post_probability vader p > 2/10)) := by
  constructor
  · intro hp
    rw [process_single_post_eq]
    by_cases hex : signalExists store p.platform p.post_id = true
    · rw [if_pos hex]
    · rw [if_neg hex, if_neg hp]
  · intro hex
    have hex2 : ¬(signalExists store p.platform p.post_id = true) := by
      rw [hex]
      simp
    constructor
    · intro h
      by_contra hp
      rw [process_single_post_eq, if_neg hex2, if_neg hp] at h
      have := congrArg List.length h
      simp at this
    · intro hp
      rw [process_single_post_eq, if_neg hex2, if_pos hp]

/-- C5 witness: the "tsunami flood" post (probability 0.7) is persisted
from the empty store. -/
theorem c5_persist_iff_above_threshold_witness :
    process_single_post vaderZero [] tsunamiFloodPost
      = [] ++ [post_row vaderZero tsunamiFloodPost] :=
  ((c5_persist_iff_above_threshold vaderZero [] tsunamiFloodPost).2
    (by decide)).mpr (by rw [post_probability_tf]; norm_num)

/-- C6 (confirmed): an alert is created active with
`expires_at = created_at + 24h`; the cleanup sweep maps every alert
through `deactivate_if_expired`, which flips exactly the active alerts
with `expires_at < now` and leaves the others unchanged; and an inactive
alert row survives every sequence of lifecycle operations unchanged —
inactive is terminal and rows are never deleted. -/
theorem c6_alert_lifecycle :
    (∀ (s : BackendState) (now : Int) (ty t m sv : String)
        (ar : Option String) (src : String),
      (create_alert s now ty t m sv ar src).1.is_active = true ∧
      (create_alert s now ty t m sv ar src).1.created_at = now ∧
      (create_alert s now ty t m sv ar src).1.expires_at = now + 86400 ∧
      (create_alert s now ty t m sv ar src).1
        ∈ (create_alert s now ty t m sv ar src).2.alerts) ∧
    (∀ (s : BackendState) (now : Int),
      (cleanup_expired_alerts s now).alerts
        = s.alerts.map (deactivate_if_expired now)) ∧
    (∀ (now : Int) (a : Alert), a.is_active = true → a.expires_at < now →
      (deactivate_if_expired now a).is_active = false) ∧
    (∀ (now : Int) (a : Alert), ¬a.expires_at < now →
      deactivate_if_expired now a = a) ∧
    (∀ (s : BackendState) (i : Nat) (a : Alert) (ops : List BOp),
      findAlert s i = some a → a.is_active = false →
      findAlert (applyOps s ops) i = some a) := by
  refine ⟨?_, fun s now => rfl, ?_, ?_, ?_⟩
  · intro s now ty t m sv ar src
    refine ⟨rfl, rfl, rfl, ?_⟩
    show _ ∈ s.alerts ++ [_]
    exact List.mem_append_right _ (List.mem_singleton.mpr rfl)
  · intro now a h1 h2
    unfold deactivate_if_expired
    rw [if_pos ⟨h2, h1⟩]
  · intro now a h
    unfold deactivate_if_expired
    rw [if_neg fun hc => h hc.1]
  · exact fun s i a ops hf hi => findAlert_inactive_applyOps i a hi ops s hf

/-- C6 witness: a fresh alert is active with a 24h TTL, and the
pre-existing inactive alert is still inactive and present after a sweep,
a new creation, and another sweep. -/
theorem c6_alert_lifecycle_witness :
    (create_alert c6State 0 "tsunami" "T" "M" "high" none "system").1.is_active
      = true ∧
    (create_alert c6State 0 "tsunami" "T" "M" "high" none
      "system").1.expires_at = 86400 ∧
    findAlert (applyOps c6State
        [BOp.cleanup 90000,
         BOp.createAlert 100000 "tsunami" "T" "M" "high" none "system",
         BOp.cleanup 200000]) 3 = some c6InactiveAlert :=
  ⟨(c6_alert_lifecycle.1 c6State 0 "tsunami" "T" "M" "high" none "system").1,
   (c6_alert_lifecycle.1 c6State 0 "tsunami" "T" "M" "high" none "system").2.2.1,
   c6_alert_lifecycle.2.2.2.2 c6State 3 c6InactiveAlert
     [BOp.cleanup 90000,
      BOp.createAlert 100000 "tsunami" "T" "M" "high" none "system",
      BOp.cleanup 200000] (by decide) (by decide)⟩

/-- C7 (confirmed): `mark_alert_read` is idempotent; when no
`(user, alert)` row exists it changes nothing and creates no row; when
one exists, the matching row ends with `is_read = true` whatever its
prior value; the row count and the alerts table are untouched. -/
theorem c7_mark_read_idempotent (s : BackendState) (u a : Nat) :
    mark_alert_read (mark_alert_read s u a) u a = mark_alert_read s u a ∧
    ((∀ ua ∈ s.user_alerts, ¬(ua.user_id = u ∧ ua.alert_id = a)) →
      mark_alert_read s u a = s) ∧
    (∀ ua, findUserAlert s.user_alerts u a = some ua →
      findUserAlert (mark_alert_read s u a).user_alerts u a
        = some { ua with is_read := true }) ∧
    (mark_alert_read s u a).user_alerts.length = s.user_alerts.length ∧
    (mark_alert_read s u a).alerts = s.alerts := by
  refine ⟨?_, ?_, ?_, ?_, rfl⟩
  · simp [mark_alert_read, setReadFirst_idem]
  · intro h
    rw [mark_alert_read, setReadFirst_no_match u a s.user_alerts h]
  · exact fun ua h => setReadFirst_find u a s.user_alerts ua h
  · exact setReadFirst_length u a s.user_alerts

/-- C7 witness: for the single row (42, 7, unread), two calls equal one,
the row ends read, and a call for a missing pair leaves the state
untouched. -/
theorem c7_mark_read_idempotent_witness :
    mark_alert_read (mark_alert_read c7State 42 7) 42 7
      = mark_alert_read c7State 42 7 ∧
    findUserAlert (mark_alert_read c7State 42 7).user_alerts 42 7
      = some (UserAlert.mk 42 7 true) ∧
    mark_alert_read c7State 99 7 = c7State :=
  ⟨(c7_mark_read_idempotent c7State 42 7).1,
   (c7_mark_read_idempotent c7State 42 7).2.2.1 (UserAlert.mk 42 7 false)
     (by decide),
   (c7_mark_read_idempotent c7State 99 7).2.1 (by decide)⟩

/-- C10 witness: severity "banana" is accepted with a valid hazard type;
hazard type "earthquake" is rejected. -/
theorem c10_hazard_type_validation_witness :
    create_hazard_report 1
        { title := "t", description := "d", hazard_type := "tsunami",
          severity := "banana", latitude := 13, longitude := 80 } =
      .ok { user_id := 1, title := "t", description := "d",
            hazard_type := "tsunami", severity := "banana",
            longitude := 80, latitude := 13, is_verified := false } ∧
    create_hazard_report 1
        { title := "t", description := "d", hazard_type := "earthquake",
          severity := "high", latitude := 13, longitude := 80 } =
      .error (.httpError 400) :=
  ⟨(c10_hazard_type_validation 1 _).2.1 (by decide),
   (c10_hazard_type_validation 1 _).2.2 (by decide)⟩

end Dolphins
